import Mathlib

/-!
Verification of the Shopify → Microsoft Dynamics AX middleware
(`main.go`): the transform-and-deliver pipeline.

The embedding models, faithfully to the Go source:

* the inbound data model (`ShopifyOrder`, `Customer`, `LineItem`,
  `Address`) and the outbound one (`ERPOrder`, `ERPItem`, `ERPAddress`);
* `xmlEscape` (Go `html.EscapeString`: the five-character replacer);
* `transformOrder` — Go calls `time.Now().UTC().Format(time.RFC3339)`
  internally; the embedding passes that clock reading as the explicit
  `now` argument, the only impurity of the function;
* `createSOAPEnvelope` — the fixed string template, split at the same
  seams as the Go source (one literal up to `<tem:Items>`, a per-item
  block appended in a loop, one trailing literal holding the timestamp);
* `sendToERP`'s retry loop — the network is abstracted as an oracle
  `Nat → AttemptResult` giving the outcome of each numbered attempt
  (request construction, header setting and logging are I/O with no
  bearing on the control flow); the loop `for attempt := 1; attempt <=
  MaxRetries; attempt++` walks the list `[1, …, MaxRetries]`, and the
  result records the attempts made, the sleeps performed
  (`RetryDelay * attempt` seconds each) and the returned value
  (`Except` error message or (status, body), as `fmt.Errorf` builds it).
-/

namespace HedeyaAx

/-- `MaxRetries = 3` from the Go constant block. -/
def MaxRetries : Nat := 3

/-- `RetryDelay = 2 * time.Second`, modelled in seconds. -/
def RetryDelay : Nat := 2

/-- Inbound customer record (`Customer` in `main.go`). -/
structure Customer where
  ID        : Int
  Email     : String
  FirstName : String
  LastName  : String
  Phone     : String
deriving Repr, DecidableEq

/-- Inbound line item (`LineItem` in `main.go`). -/
structure LineItem where
  ID                 : Int
  ProductID          : Int
  VariantID          : Int
  Title              : String
  Name               : String
  Quantity           : Int
  Price              : String
  SKU                : String
  VariantTitle       : String
  FulfillmentService : String
deriving Repr, DecidableEq

/-- Inbound postal address (`Address` in `main.go`). -/
structure Address where
  FirstName    : String
  LastName     : String
  Company      : String
  Address1     : String
  Address2     : String
  City         : String
  Province     : String
  Country      : String
  Zip          : String
  Phone        : String
  ProvinceCode : String
  CountryCode  : String
deriving Repr, DecidableEq

/-- Inbound order (`ShopifyOrder` in `main.go`). -/
structure ShopifyOrder where
  ID                : Int
  OrderNumber       : Int
  Email             : String
  CreatedAt         : String
  UpdatedAt         : String
  TotalPrice        : String
  SubtotalPrice     : String
  TotalTax          : String
  Currency          : String
  FinancialStatus   : String
  FulfillmentStatus : String
  Customer          : Customer
  LineItems         : List LineItem
  ShippingAddress   : Address
  BillingAddress    : Address
deriving Repr, DecidableEq

/-- Outbound item (`ERPItem` in `main.go`). -/
structure ERPItem where
  SKU          : String
  ProductName  : String
  Quantity     : Int
  UnitPrice    : String
  VariantTitle : String
deriving Repr, DecidableEq

/-- Outbound address (`ERPAddress` in `main.go`). -/
structure ERPAddress where
  Name         : String
  Company      : String
  AddressLine1 : String
  AddressLine2 : String
  City         : String
  State        : String
  PostalCode   : String
  Country      : String
  Phone        : String
deriving Repr, DecidableEq

/-- Outbound order (`ERPOrder` in `main.go`). -/
structure ERPOrder where
  OrderID           : String
  OrderNumber       : String
  CustomerEmail     : String
  CustomerName      : String
  CustomerPhone     : String
  OrderDate         : String
  TotalAmount       : String
  SubtotalAmount    : String
  TaxAmount         : String
  Currency          : String
  PaymentStatus     : String
  FulfillmentStatus : String
  Items             : List ERPItem
  ShippingAddress   : ERPAddress
  BillingAddress    : ERPAddress
  Timestamp         : String
deriving Repr, DecidableEq

/-- The apostrophe character (U+0027). -/
def apos : Char := Char.ofNat 39

/-- One character under Go's `html.EscapeString` replacer: `&`→`&amp;`,
apostrophe→`&#39;`, `<`→`&lt;`, `>`→`&gt;`, `"`→`&#34;`; every other
character is kept as is. -/
def escapeChar (c : Char) : List Char :=
  if c = '&' then ['&', 'a', 'm', 'p', ';']
  else if c = apos then ['&', '#', '3', '9', ';']
  else if c = '<' then ['&', 'l', 't', ';']
  else if c = '>' then ['&', 'g', 't', ';']
  else if c = '"' then ['&', '#', '3', '4', ';']
  else [c]

/-- `xmlEscape` from `main.go`, i.e. Go's `html.EscapeString`. -/
def xmlEscape (s : String) : String :=
  ⟨List.flatten (s.data.map escapeChar)⟩

/-- Go `fmt.Sprintf("%s %s", a, b)`. -/
def sprintfTwo (a b : String) : String := a ++ " " ++ b

/-- One inbound line item mapped to its outbound form — the body of the
item loop at the top of `transformOrder`. -/
def toERPItem (item : LineItem) : ERPItem :=
  { SKU          := item.SKU
    ProductName  := item.Title
    Quantity     := item.Quantity
    UnitPrice    := item.Price
    VariantTitle := item.VariantTitle }

/-- The address mapping used for both the shipping and the billing
address inside `transformOrder`. -/
def toERPAddress (a : Address) : ERPAddress :=
  { Name         := sprintfTwo a.FirstName a.LastName
    Company      := a.Company
    AddressLine1 := a.Address1
    AddressLine2 := a.Address2
    City         := a.City
    State        := a.Province
    PostalCode   := a.Zip
    Country      := a.Country
    Phone        := a.Phone }

/-- `transformOrder` from `main.go`. The Go function reads the clock for
the `Timestamp` field (`time.Now().UTC().Format(time.RFC3339)`); here
that reading is the explicit argument `now`. -/
def transformOrder (o : ShopifyOrder) (now : String) : ERPOrder :=
  { OrderID           := toString o.ID
    OrderNumber       := toString o.OrderNumber
    CustomerEmail     := o.Email
    CustomerName      := sprintfTwo o.Customer.FirstName o.Customer.LastName
    CustomerPhone     := o.Customer.Phone
    OrderDate         := o.CreatedAt
    TotalAmount       := o.TotalPrice
    SubtotalAmount    := o.SubtotalPrice
    TaxAmount         := o.TotalTax
    Currency          := o.Currency
    PaymentStatus     := o.FinancialStatus
    FulfillmentStatus := o.FulfillmentStatus
    Items             := o.LineItems.map toERPItem
    ShippingAddress   := toERPAddress o.ShippingAddress
    BillingAddress    := toERPAddress o.BillingAddress
    Timestamp         := now }

/-- The first raw-string literal of `createSOAPEnvelope`, with the scalar
order fields and the two address blocks interpolated at the same places
as in the Go source, up to and including `<tem:Items>`. -/
def soapScalarPart (e : ERPOrder) : String :=
  "<?xml version=\"1.0\" encoding=\"utf-8\"?>\n<soap:Envelope xmlns:soap=\"http://schemas.xmlsoap.org/soap/envelope/\" \n               xmlns:tem=\"http://tempuri.org/\">\n  <soap:Header/>\n  <soap:Body>\n    <tem:CreateOrder>\n      <tem:order>\n        <tem:OrderID>" ++ xmlEscape e.OrderID
  ++ "</tem:OrderID>\n        <tem:OrderNumber>" ++ xmlEscape e.OrderNumber
  ++ "</tem:OrderNumber>\n        <tem:CustomerEmail>" ++ xmlEscape e.CustomerEmail
  ++ "</tem:CustomerEmail>\n        <tem:CustomerName>" ++ xmlEscape e.CustomerName
  ++ "</tem:CustomerName>\n        <tem:CustomerPhone>" ++ xmlEscape e.CustomerPhone
  ++ "</tem:CustomerPhone>\n        <tem:OrderDate>" ++ xmlEscape e.OrderDate
  ++ "</tem:OrderDate>\n        <tem:TotalAmount>" ++ xmlEscape e.TotalAmount
  ++ "</tem:TotalAmount>\n        <tem:SubtotalAmount>" ++ xmlEscape e.SubtotalAmount
  ++ "</tem:SubtotalAmount>\n        <tem:TaxAmount>" ++ xmlEscape e.TaxAmount
  ++ "</tem:TaxAmount>\n        <tem:Currency>" ++ xmlEscape e.Currency
  ++ "</tem:Currency>\n        <tem:PaymentStatus>" ++ xmlEscape e.PaymentStatus
  ++ "</tem:PaymentStatus>\n        <tem:FulfillmentStatus>" ++ xmlEscape e.FulfillmentStatus
  ++ "</tem:FulfillmentStatus>\n        <tem:ShippingAddress>\n          <tem:Name>" ++ xmlEscape e.ShippingAddress.Name
  ++ "</tem:Name>\n          <tem:Company>" ++ xmlEscape e.ShippingAddress.Company
  ++ "</tem:Company>\n          <tem:AddressLine1>" ++ xmlEscape e.ShippingAddress.AddressLine1
  ++ "</tem:AddressLine1>\n          <tem:AddressLine2>" ++ xmlEscape e.ShippingAddress.AddressLine2
  ++ "</tem:AddressLine2>\n          <tem:City>" ++ xmlEscape e.ShippingAddress.City
  ++ "</tem:City>\n          <tem:State>" ++ xmlEscape e.ShippingAddress.State
  ++ "</tem:State>\n          <tem:PostalCode>" ++ xmlEscape e.ShippingAddress.PostalCode
  ++ "</tem:PostalCode>\n          <tem:Country>" ++ xmlEscape e.ShippingAddress.Country
  ++ "</tem:Country>\n          <tem:Phone>" ++ xmlEscape e.ShippingAddress.Phone
  ++ "</tem:Phone>\n        </tem:ShippingAddress>\n        <tem:BillingAddress>\n          <tem:Name>" ++ xmlEscape e.BillingAddress.Name
  ++ "</tem:Name>\n          <tem:Company>" ++ xmlEscape e.BillingAddress.Company
  ++ "</tem:Company>\n          <tem:AddressLine1>" ++ xmlEscape e.BillingAddress.AddressLine1
  ++ "</tem:AddressLine1>\n          <tem:AddressLine2>" ++ xmlEscape e.BillingAddress.AddressLine2
  ++ "</tem:AddressLine2>\n          <tem:City>" ++ xmlEscape e.BillingAddress.City
  ++ "</tem:City>\n          <tem:State>" ++ xmlEscape e.BillingAddress.State
  ++ "</tem:State>\n          <tem:PostalCode>" ++ xmlEscape e.BillingAddress.PostalCode
  ++ "</tem:PostalCode>\n          <tem:Country>" ++ xmlEscape e.BillingAddress.Country
  ++ "</tem:Country>\n          <tem:Phone>" ++ xmlEscape e.BillingAddress.Phone
  ++ "</tem:Phone>\n        </tem:BillingAddress>\n        <tem:Items>"

/-- The raw-string literal appended once per line item inside the `for`
loop of `createSOAPEnvelope` (it starts with a newline in the source). -/
def soapItemBlock (item : ERPItem) : String :=
  "\n          <tem:Item>\n            <tem:SKU>" ++ xmlEscape item.SKU
  ++ "</tem:SKU>\n            <tem:ProductName>" ++ xmlEscape item.ProductName
  ++ "</tem:ProductName>\n            <tem:Quantity>" ++ toString item.Quantity
  ++ "</tem:Quantity>\n            <tem:UnitPrice>" ++ xmlEscape item.UnitPrice
  ++ "</tem:UnitPrice>\n            <tem:VariantTitle>" ++ xmlEscape item.VariantTitle
  ++ "</tem:VariantTitle>\n          </tem:Item>"

/-- The closing-literal text between `</tem:Items>` and the opening
`<tem:Timestamp>` tag in the final append of `createSOAPEnvelope`. -/
def itemsCloseTimestampOpen : String :=
  "\n        </tem:Items>\n        <tem:Timestamp>"

/-- The literal tail of the envelope after the escaped timestamp. -/
def envelopeAfterTimestamp : String :=
  "</tem:Timestamp>\n      </tem:order>\n    </tem:CreateOrder>\n  </soap:Body>\n</soap:Envelope>"

/-- `createSOAPEnvelope` from `main.go`: the scalar part, then the item
blocks appended in order of `e.Items` (the `for _, item := range` loop),
then the final append carrying the timestamp. -/
def createSOAPEnvelope (e : ERPOrder) : String :=
  soapScalarPart e
  ++ String.join (e.Items.map soapItemBlock)
  ++ (itemsCloseTimestampOpen ++ xmlEscape e.Timestamp ++ envelopeAfterTimestamp)

/-- Outcome of one `s.httpClient.Do(req)` call inside `sendToERP`:
either the Go `err != nil` branch (no response received) or a response
with its status code and body. -/
inductive AttemptResult where
  | transportError (cause : String)
  | response (status : Nat) (body : String)
deriving Repr, DecidableEq

/-- Observable result of a `sendToERP` run: the number of iterations the
loop performed, the sleeps executed (in seconds, in order), and the
returned value — `Except.error` with the `fmt.Errorf` message, or
`Except.ok` with the 2xx status and response body the run succeeded on. -/
structure SendTrace where
  attemptsMade : Nat
  sleeps       : List Nat
  result       : Except String (Nat × String)
deriving Repr

/-- The attempt counter values visited by
`for attempt := 1; attempt <= MaxRetries; attempt++`. -/
def attemptNumbers : List Nat := List.range' 1 MaxRetries

/-- The body of `sendToERP`'s retry loop, walking the remaining attempt
numbers. `oracle n` is what `httpClient.Do` yields on attempt `n`;
`made` and `sleeps` accumulate the trace (sleeps in reverse). Each
branch mirrors the Go control flow: transport error → retry if
`attempt < MaxRetries` after sleeping `RetryDelay * attempt`, else
return the wrapping error; 2xx response → return nil (here: the status
and body); non-2xx → sleep and retry if `attempt < MaxRetries`, else
fall out of the loop into the trailing `fmt.Errorf`. -/
def sendLoop (oracle : Nat → AttemptResult) :
    List Nat → Nat → List Nat → SendTrace
  | [], made, sleeps =>
      { attemptsMade := made
        sleeps := sleeps.reverse
        result := .error
          ("failed to send order to ERP after " ++ toString MaxRetries ++ " attempts") }
  | attempt :: rest, made, sleeps =>
      match oracle attempt with
      | .transportError cause =>
          if attempt < MaxRetries then
            sendLoop oracle rest (made + 1) (RetryDelay * attempt :: sleeps)
          else
            { attemptsMade := made + 1
              sleeps := sleeps.reverse
              result := .error
                ("failed to send request after " ++ toString MaxRetries
                  ++ " attempts: " ++ cause) }
      | .response status body =>
          if 200 ≤ status ∧ status < 300 then
            { attemptsMade := made + 1
              sleeps := sleeps.reverse
              result := .ok (status, body) }
          else if attempt < MaxRetries then
            sendLoop oracle rest (made + 1) (RetryDelay * attempt :: sleeps)
          else
            sendLoop oracle rest (made + 1) sleeps

/-- `sendToERP` from `main.go`, with the network abstracted as the
per-attempt `oracle`. -/
def sendToERP (oracle : Nat → AttemptResult) : SendTrace :=
  sendLoop oracle attemptNumbers 0 []

/-- Modelled from the spec: a conforming reader of the outbound wire
format's character data, decoding exactly the five entities the escaper
emits (`&amp;` `&#39;` `&lt;` `&gt;` `&#34;`) and passing every other
character through. This is the spec's "conforming parser of the
outbound wire format" used to state the round-trip property; the
repository itself contains no decoder. -/
def xmlUnescapeAux : List Char → List Char
  | [] => []
  | '&' :: 'a' :: 'm' :: 'p' :: ';' :: rest => '&' :: xmlUnescapeAux rest
  | '&' :: '#' :: '3' :: '9' :: ';' :: rest => Char.ofNat 39 :: xmlUnescapeAux rest
  | '&' :: 'l' :: 't' :: ';' :: rest => '<' :: xmlUnescapeAux rest
  | '&' :: 'g' :: 't' :: ';' :: rest => '>' :: xmlUnescapeAux rest
  | '&' :: '#' :: '3' :: '4' :: ';' :: rest => '"' :: xmlUnescapeAux rest
  | c :: rest => c :: xmlUnescapeAux rest

/-- Modelled from the spec: entity decoding lifted to strings. -/
def xmlUnescape (s : String) : String :=
  ⟨xmlUnescapeAux s.data⟩

/-- A `Customer` whose every field holds its Go zero value, as produced
by `json.Unmarshal` when the corresponding JSON keys are absent. -/
def zeroCustomer : Customer :=
  { ID := 0, Email := "", FirstName := "", LastName := "", Phone := "" }

/-- An `Address` whose every field holds its Go zero value. -/
def zeroAddress : Address :=
  { FirstName := "", LastName := "", Company := "", Address1 := "", Address2 := ""
    City := "", Province := "", Country := "", Zip := "", Phone := ""
    ProvinceCode := "", CountryCode := "" }

/-- A `ShopifyOrder` whose every field holds its Go zero value: what
`json.Unmarshal` yields for the payload `{}`, in which every field is
structurally absent. -/
def zeroShopifyOrder : ShopifyOrder :=
  { ID := 0, OrderNumber := 0, Email := "", CreatedAt := "", UpdatedAt := ""
    TotalPrice := "", SubtotalPrice := "", TotalTax := "", Currency := ""
    FinancialStatus := "", FulfillmentStatus := "", Customer := zeroCustomer
    LineItems := [], ShippingAddress := zeroAddress, BillingAddress := zeroAddress }

/-- Sample outbound items for concrete envelope statements. -/
def itemA : ERPItem :=
  { SKU := "SKU-A", ProductName := "Alpha", Quantity := 1
    UnitPrice := "10.00", VariantTitle := "a" }

/-- Second sample outbound item. -/
def itemB : ERPItem :=
  { SKU := "SKU-B", ProductName := "Beta", Quantity := 2
    UnitPrice := "20.00", VariantTitle := "b" }

/-- Third sample outbound item. -/
def itemC : ERPItem :=
  { SKU := "SKU-C", ProductName := "Gamma", Quantity := 3
    UnitPrice := "30.00", VariantTitle := "c" }

/-- A concrete outbound order carrying the three sample items. -/
def sampleERPOrder : ERPOrder :=
  { OrderID := "12345", OrderNumber := "1001", CustomerEmail := "c@x.com"
    CustomerName := "Jo Doe", CustomerPhone := "+20", OrderDate := "2024-01-01T00:00:00Z"
    TotalAmount := "150.00", SubtotalAmount := "140.00", TaxAmount := "10.00"
    Currency := "USD", PaymentStatus := "paid", FulfillmentStatus := ""
    Items := [itemA, itemB, itemC]
    ShippingAddress := toERPAddress zeroAddress
    BillingAddress := toERPAddress zeroAddress
    Timestamp := "2024-02-02T03:04:05Z" }

/-! ## Claim theorems -/

/-- C6: `transformOrder` maps `LineItems` index-for-index (same length,
same order, no reordering or deduplication), and `createSOAPEnvelope`
emits exactly one item block per item in the same order: for items
`[A, B, C]` the envelope carries the blocks in the sequence A, B, C
between the scalar part and the trailing timestamp section. -/
theorem line_item_order_preserved (o : ShopifyOrder) (now : String) :
    ((transformOrder o now).Items.length = o.LineItems.length
      ∧ ∀ i : Nat, (transformOrder o now).Items[i]? = (o.LineItems[i]?).map toERPItem)
    ∧ ∀ (e : ERPOrder) (A B C : ERPItem), e.Items = [A, B, C] →
        createSOAPEnvelope e
          = soapScalarPart e ++ (soapItemBlock A ++ soapItemBlock B ++ soapItemBlock C)
            ++ (itemsCloseTimestampOpen ++ xmlEscape e.Timestamp ++ envelopeAfterTimestamp) := by
  refine ⟨⟨?_, ?_⟩, ?_⟩
  · simp [transformOrder]
  · intro i
    simp [transformOrder, List.getElem?_map]
  · intro e A B C hItems
    simp [createSOAPEnvelope, hItems, String.join]

/-- C6 witness: the envelope of `sampleERPOrder`, whose items are
`[itemA, itemB, itemC]`, decomposes with the three blocks in order. -/
theorem line_item_order_preserved_witness :
    createSOAPEnvelope sampleERPOrder
      = soapScalarPart sampleERPOrder
        ++ (soapItemBlock itemA ++ soapItemBlock itemB ++ soapItemBlock itemC)
        ++ (itemsCloseTimestampOpen ++ xmlEscape sampleERPOrder.Timestamp
            ++ envelopeAfterTimestamp) :=
  (line_item_order_preserved zeroShopifyOrder "").2 sampleERPOrder itemA itemB itemC rfl

/-- C7: every display name of the outbound order — customer name and the
two address contact names — is `firstName ++ " " ++ lastName`, with a
single space separator and no trimming, for all inputs (hence also when
either part is the empty string). -/
theorem display_names_concatenated (o : ShopifyOrder) (now : String) :
    (transformOrder o now).CustomerName
        = o.Customer.FirstName ++ " " ++ o.Customer.LastName
    ∧ (transformOrder o now).ShippingAddress.Name
        = o.ShippingAddress.FirstName ++ " " ++ o.ShippingAddress.LastName
    ∧ (transformOrder o now).BillingAddress.Name
        = o.BillingAddress.FirstName ++ " " ++ o.BillingAddress.LastName :=
  ⟨rfl, rfl, rfl⟩

/-- C8: `transformOrder` is a total function (it is a Lean `def` with no
`Option`/`Except`: the Go body indexes nothing and calls only total
operations), and on the all-zero-values inbound order — every field
structurally absent — it produces the full fixed-shape outbound record:
every pass-through string field is `""`, none is missing, the numeric
ids print as `"0"`, the item list is empty, and the concatenated display
names are the single space `" "`. -/
theorem transform_total_on_zero_order (now : String) :
    transformOrder zeroShopifyOrder now =
      { OrderID := "0", OrderNumber := "0", CustomerEmail := "", CustomerName := " "
        CustomerPhone := "", OrderDate := "", TotalAmount := "", SubtotalAmount := ""
        TaxAmount := "", Currency := "", PaymentStatus := "", FulfillmentStatus := ""
        Items := []
        ShippingAddress :=
          { Name := " ", Company := "", AddressLine1 := "", AddressLine2 := ""
            City := "", State := "", PostalCode := "", Country := "", Phone := "" }
        BillingAddress :=
          { Name := " ", Company := "", AddressLine1 := "", AddressLine2 := ""
            City := "", State := "", PostalCode := "", Country := "", Phone := "" }
        Timestamp := now } := by
  rfl

/-- C9: the money fields pass through `transformOrder` by name with no
arithmetic — `TotalPrice`→`TotalAmount`, `SubtotalPrice`→`SubtotalAmount`,
`TotalTax`→`TaxAmount`, and per item `Price`→`UnitPrice` — as the
identical strings (the embedding keeps them at type `String` end-to-end,
as the Go structs do), and each item's integer `Quantity` is carried
through unmodified. -/
theorem money_fields_pass_through (o : ShopifyOrder) (now : String) :
    (transformOrder o now).TotalAmount = o.TotalPrice
    ∧ (transformOrder o now).SubtotalAmount = o.SubtotalPrice
    ∧ (transformOrder o now).TaxAmount = o.TotalTax
    ∧ (∀ i : Nat, ((transformOrder o now).Items[i]?).map ERPItem.UnitPrice
        = (o.LineItems[i]?).map LineItem.Price)
    ∧ (∀ i : Nat, ((transformOrder o now).Items[i]?).map ERPItem.Quantity
        = (o.LineItems[i]?).map LineItem.Quantity) := by
  refine ⟨rfl, rfl, rfl, ?_, ?_⟩ <;> intro i <;>
    simp [transformOrder, List.getElem?_map, Option.map_map] <;> rfl

/-- C10: the outbound `OrderDate` is the inbound `CreatedAt` string
verbatim, while `Timestamp` is the clock reading taken inside
`transformOrder` (the `now` argument of the embedding) — two distinct
fields fed from distinct sources. -/
theorem order_date_is_created_at (o : ShopifyOrder) (now : String) :
    (transformOrder o now).OrderDate = o.CreatedAt
    ∧ (transformOrder o now).Timestamp = now :=
  ⟨rfl, rfl⟩

/-- Everything of the encoded envelope that precedes the escaped
timestamp value, as a function of the inbound order alone (the clock
argument passed to `transformOrder` is irrelevant to it: the dummy `""`
below never reaches any emitted field). -/
def envelopeBeforeTimestamp (o : ShopifyOrder) : String :=
  soapScalarPart (transformOrder o "")
  ++ String.join ((transformOrder o "").Items.map soapItemBlock)
  ++ itemsCloseTimestampOpen

/-- C4: mapping then encoding is deterministic in the inbound order:
the transform of `o` at two clock readings differs in the `Timestamp`
field alone, and the encoded envelope of `transformOrder o t` is a
fixed function of `o` — `envelopeBeforeTimestamp o`, which does not
depend on `t` — followed by the escaped timestamp and a constant tail.
Hence two field-for-field equal inbound orders yield byte-identical
envelopes apart from the embedded timestamp field. -/
theorem map_encode_deterministic (o : ShopifyOrder) (t₁ t₂ : String) :
    transformOrder o t₁ = { transformOrder o t₂ with Timestamp := t₁ }
    ∧ createSOAPEnvelope (transformOrder o t₁)
        = envelopeBeforeTimestamp o ++ xmlEscape t₁ ++ envelopeAfterTimestamp := by
  refine ⟨rfl, ?_⟩
  simp only [createSOAPEnvelope, envelopeBeforeTimestamp, String.append_assoc]
  rfl

/-- Modelled from the spec ("apply a generic text-escaping routine to
all fields uniformly"): an `ERPItem` with every scalar text field
already escaped; `Quantity` is numeric and untouched. -/
def escapeERPItem (i : ERPItem) : ERPItem :=
  { SKU          := xmlEscape i.SKU
    ProductName  := xmlEscape i.ProductName
    Quantity     := i.Quantity
    UnitPrice    := xmlEscape i.UnitPrice
    VariantTitle := xmlEscape i.VariantTitle }

/-- Modelled from the spec: an `ERPAddress` with every field escaped. -/
def escapeERPAddress (a : ERPAddress) : ERPAddress :=
  { Name         := xmlEscape a.Name
    Company      := xmlEscape a.Company
    AddressLine1 := xmlEscape a.AddressLine1
    AddressLine2 := xmlEscape a.AddressLine2
    City         := xmlEscape a.City
    State        := xmlEscape a.State
    PostalCode   := xmlEscape a.PostalCode
    Country      := xmlEscape a.Country
    Phone        := xmlEscape a.Phone }

/-- Modelled from the spec: an `ERPOrder` with every scalar text field,
in every nested block, escaped. -/
def escapeERPOrder (e : ERPOrder) : ERPOrder :=
  { OrderID           := xmlEscape e.OrderID
    OrderNumber       := xmlEscape e.OrderNumber
    CustomerEmail     := xmlEscape e.CustomerEmail
    CustomerName      := xmlEscape e.CustomerName
    CustomerPhone     := xmlEscape e.CustomerPhone
    OrderDate         := xmlEscape e.OrderDate
    TotalAmount       := xmlEscape e.TotalAmount
    SubtotalAmount    := xmlEscape e.SubtotalAmount
    TaxAmount         := xmlEscape e.TaxAmount
    Currency          := xmlEscape e.Currency
    PaymentStatus     := xmlEscape e.PaymentStatus
    FulfillmentStatus := xmlEscape e.FulfillmentStatus
    Items             := e.Items.map escapeERPItem
    ShippingAddress   := escapeERPAddress e.ShippingAddress
    BillingAddress    := escapeERPAddress e.BillingAddress
    Timestamp         := xmlEscape e.Timestamp }

/-- Modelled from the spec: the scalar part of the envelope template
with the fields embedded verbatim (no escaping), for comparison against
`soapScalarPart`. -/
def rawScalarPart (e : ERPOrder) : String :=
  "<?xml version=\"1.0\" encoding=\"utf-8\"?>\n<soap:Envelope xmlns:soap=\"http://schemas.xmlsoap.org/soap/envelope/\" \n               xmlns:tem=\"http://tempuri.org/\">\n  <soap:Header/>\n  <soap:Body>\n    <tem:CreateOrder>\n      <tem:order>\n        <tem:OrderID>" ++ e.OrderID
  ++ "</tem:OrderID>\n        <tem:OrderNumber>" ++ e.OrderNumber
  ++ "</tem:OrderNumber>\n        <tem:CustomerEmail>" ++ e.CustomerEmail
  ++ "</tem:CustomerEmail>\n        <tem:CustomerName>" ++ e.CustomerName
  ++ "</tem:CustomerName>\n        <tem:CustomerPhone>" ++ e.CustomerPhone
  ++ "</tem:CustomerPhone>\n        <tem:OrderDate>" ++ e.OrderDate
  ++ "</tem:OrderDate>\n        <tem:TotalAmount>" ++ e.TotalAmount
  ++ "</tem:TotalAmount>\n        <tem:SubtotalAmount>" ++ e.SubtotalAmount
  ++ "</tem:SubtotalAmount>\n        <tem:TaxAmount>" ++ e.TaxAmount
  ++ "</tem:TaxAmount>\n        <tem:Currency>" ++ e.Currency
  ++ "</tem:Currency>\n        <tem:PaymentStatus>" ++ e.PaymentStatus
  ++ "</tem:PaymentStatus>\n        <tem:FulfillmentStatus>" ++ e.FulfillmentStatus
  ++ "</tem:FulfillmentStatus>\n        <tem:ShippingAddress>\n          <tem:Name>" ++ e.ShippingAddress.Name
  ++ "</tem:Name>\n          <tem:Company>" ++ e.ShippingAddress.Company
  ++ "</tem:Company>\n          <tem:AddressLine1>" ++ e.ShippingAddress.AddressLine1
  ++ "</tem:AddressLine1>\n          <tem:AddressLine2>" ++ e.ShippingAddress.AddressLine2
  ++ "</tem:AddressLine2>\n          <tem:City>" ++ e.ShippingAddress.City
  ++ "</tem:City>\n          <tem:State>" ++ e.ShippingAddress.State
  ++ "</tem:State>\n          <tem:PostalCode>" ++ e.ShippingAddress.PostalCode
  ++ "</tem:PostalCode>\n          <tem:Country>" ++ e.ShippingAddress.Country
  ++ "</tem:Country>\n          <tem:Phone>" ++ e.ShippingAddress.Phone
  ++ "</tem:Phone>\n        </tem:ShippingAddress>\n        <tem:BillingAddress>\n          <tem:Name>" ++ e.BillingAddress.Name
  ++ "</tem:Name>\n          <tem:Company>" ++ e.BillingAddress.Company
  ++ "</tem:Company>\n          <tem:AddressLine1>" ++ e.BillingAddress.AddressLine1
  ++ "</tem:AddressLine1>\n          <tem:AddressLine2>" ++ e.BillingAddress.AddressLine2
  ++ "</tem:AddressLine2>\n          <tem:City>" ++ e.BillingAddress.City
  ++ "</tem:City>\n          <tem:State>" ++ e.BillingAddress.State
  ++ "</tem:State>\n          <tem:PostalCode>" ++ e.BillingAddress.PostalCode
  ++ "</tem:PostalCode>\n          <tem:Country>" ++ e.BillingAddress.Country
  ++ "</tem:Country>\n          <tem:Phone>" ++ e.BillingAddress.Phone
  ++ "</tem:Phone>\n        </tem:BillingAddress>\n        <tem:Items>"

/-- Modelled from the spec: the per-item block with the fields embedded
verbatim. -/
def rawItemBlock (item : ERPItem) : String :=
  "\n          <tem:Item>\n            <tem:SKU>" ++ item.SKU
  ++ "</tem:SKU>\n            <tem:ProductName>" ++ item.ProductName
  ++ "</tem:ProductName>\n            <tem:Quantity>" ++ toString item.Quantity
  ++ "</tem:Quantity>\n            <tem:UnitPrice>" ++ item.UnitPrice
  ++ "</tem:UnitPrice>\n            <tem:VariantTitle>" ++ item.VariantTitle
  ++ "</tem:VariantTitle>\n          </tem:Item>"

/-- Modelled from the spec: the whole envelope with the fields embedded
verbatim, so that `createSOAPEnvelope e = rawEnvelope (escapeERPOrder e)`
states that the encoder escapes every scalar text field, uniformly. -/
def rawEnvelope (e : ERPOrder) : String :=
  rawScalarPart e
  ++ String.join (e.Items.map rawItemBlock)
  ++ (itemsCloseTimestampOpen ++ e.Timestamp ++ envelopeAfterTimestamp)

/-- Decoding consumes the escape image of one character and leaves the
remainder untouched, whatever follows. -/
theorem xmlUnescapeAux_escapeChar (c : Char) (rest : List Char) :
    xmlUnescapeAux (escapeChar c ++ rest) = c :: xmlUnescapeAux rest := by
  by_cases h₁ : c = '&'
  · subst h₁; simp [escapeChar, xmlUnescapeAux]
  · by_cases h₂ : c = apos
    · subst h₂; simp [escapeChar, apos, xmlUnescapeAux]
    · by_cases h₃ : c = '<'
      · subst h₃; simp [escapeChar, apos, xmlUnescapeAux]
      · by_cases h₄ : c = '>'
        · subst h₄; simp [escapeChar, apos, xmlUnescapeAux]
        · by_cases h₅ : c = '"'
          · subst h₅; simp [escapeChar, apos, xmlUnescapeAux]
          · simp only [escapeChar, h₁, h₂, h₃, h₄, h₅, if_false, List.cons_append,
              List.nil_append]
            rw [xmlUnescapeAux.eq_def]
            split
            all_goals simp_all

/-- Decoding inverts per-character escaping over whole character lists. -/
theorem xmlUnescapeAux_flatten (l : List Char) :
    xmlUnescapeAux (List.flatten (l.map escapeChar)) = l := by
  induction l with
  | nil => rfl
  | cons c cs ih => simp [xmlUnescapeAux_escapeChar, ih]

/-- C5: (uniformity) the encoder escapes every scalar text value — the
envelope equals the verbatim template applied to the order with
`xmlEscape` pre-applied to all fields of all blocks, empty or not; and
(round trip) un-escaping by the conforming decoder of the wire format
inverts `xmlEscape` on every string. -/
theorem escaping_uniform_and_roundtrip :
    (∀ e : ERPOrder, createSOAPEnvelope e = rawEnvelope (escapeERPOrder e))
    ∧ ∀ s : String, xmlUnescape (xmlEscape s) = s := by
  constructor
  · intro e
    simp only [createSOAPEnvelope, rawEnvelope, escapeERPOrder, List.map_map]
    rfl
  · intro s
    show String.mk (xmlUnescapeAux (List.flatten (s.data.map escapeChar))) = s
    rw [xmlUnescapeAux_flatten]

/-- C1: against an endpoint that answers every attempt with some
non-2xx status — any such statuses, possibly different per attempt, with
no distinction among them — `sendToERP` performs exactly `MaxRetries`
attempts, sleeps `RetryDelay * attempt` between consecutive attempts,
and returns an error. -/
theorem retry_exhaustion_on_non2xx (oracle : Nat → AttemptResult)
    (h : ∀ k, 1 ≤ k → k ≤ MaxRetries →
        ∃ st body, oracle k = .response st body ∧ ¬(200 ≤ st ∧ st < 300)) :
    (sendToERP oracle).attemptsMade = MaxRetries
    ∧ (sendToERP oracle).sleeps = [RetryDelay * 1, RetryDelay * 2]
    ∧ ∃ msg, (sendToERP oracle).result = .error msg := by
  obtain ⟨s₁, b₁, e₁, n₁⟩ := h 1 (by decide) (by decide)
  obtain ⟨s₂, b₂, e₂, n₂⟩ := h 2 (by decide) (by decide)
  obtain ⟨s₃, b₃, e₃, n₃⟩ := h 3 (by decide) (by decide)
  have hnums : attemptNumbers = [1, 2, 3] := rfl
  simp [sendToERP, hnums, sendLoop, e₁, e₂, e₃, n₁, n₂, n₃, MaxRetries]

/-- C1 witness: an endpoint that always answers 418. -/
theorem retry_exhaustion_on_non2xx_witness :
    (sendToERP (fun _ => .response 418 "teapot")).attemptsMade = MaxRetries
    ∧ (sendToERP (fun _ => .response 418 "teapot")).sleeps = [RetryDelay * 1, RetryDelay * 2]
    ∧ ∃ msg, (sendToERP (fun _ => .response 418 "teapot")).result = .error msg :=
  retry_exhaustion_on_non2xx (fun _ => .response 418 "teapot")
    (fun _ _ _ => ⟨418, "teapot", rfl, by decide⟩)

/-- C2: if attempt `k` (with `1 ≤ k ≤ MaxRetries`) is the first to
return a status in `[200, 300)`, `sendToERP` performs exactly `k`
attempts and returns that status and body as its success value — a 2xx
status is the only success condition, and the body is arbitrary
(never validated). -/
theorem early_success_on_first_2xx (oracle : Nat → AttemptResult)
    (k : Nat) (s : Nat) (body : String)
    (hk₁ : 1 ≤ k) (hk₂ : k ≤ MaxRetries)
    (hit : oracle k = .response s body) (h2xx : 200 ≤ s ∧ s < 300)
    (hbefore : ∀ j, 1 ≤ j → j < k →
        ∀ st bd, oracle j = .response st bd → ¬(200 ≤ st ∧ st < 300)) :
    (sendToERP oracle).attemptsMade = k
    ∧ (sendToERP oracle).result = .ok (s, body) := by
  have hnums : attemptNumbers = [1, 2, 3] := rfl
  have hMax : MaxRetries = 3 := rfl
  rw [hMax] at hk₂
  interval_cases k
  · simp [sendToERP, hnums, sendLoop, hit, h2xx]
  · rcases e₁ : oracle 1 with c₁ | ⟨s₁, b₁⟩
    · simp [sendToERP, hnums, sendLoop, e₁, hit, h2xx, MaxRetries]
    · have n₁ := hbefore 1 (by decide) (by decide) s₁ b₁ e₁
      simp [sendToERP, hnums, sendLoop, e₁, n₁, hit, h2xx, MaxRetries]
  · rcases e₁ : oracle 1 with c₁ | ⟨s₁, b₁⟩ <;>
      rcases e₂ : oracle 2 with c₂ | ⟨s₂, b₂⟩
    · simp [sendToERP, hnums, sendLoop, e₁, e₂, hit, h2xx, MaxRetries]
    · have n₂ := hbefore 2 (by decide) (by decide) s₂ b₂ e₂
      simp [sendToERP, hnums, sendLoop, e₁, e₂, n₂, hit, h2xx, MaxRetries]
    · have n₁ := hbefore 1 (by decide) (by decide) s₁ b₁ e₁
      simp [sendToERP, hnums, sendLoop, e₁, e₂, n₁, hit, h2xx, MaxRetries]
    · have n₁ := hbefore 1 (by decide) (by decide) s₁ b₁ e₁
      have n₂ := hbefore 2 (by decide) (by decide) s₂ b₂ e₂
      simp [sendToERP, hnums, sendLoop, e₁, e₂, n₁, n₂, hit, h2xx, MaxRetries]

/-- C2 witness: 503 on attempt 1, 201 on attempt 2 of the 3 allowed. -/
theorem early_success_on_first_2xx_witness :
    (sendToERP (fun k => if k = 2 then .response 201 "created" else .response 503 "down")).attemptsMade = 2
    ∧ (sendToERP (fun k => if k = 2 then .response 201 "created" else .response 503 "down")).result
        = .ok (201, "created") :=
  early_success_on_first_2xx
    (fun k => if k = 2 then .response 201 "created" else .response 503 "down")
    2 201 "created" (by decide) (by decide) rfl (by decide)
    (fun j hj₁ hj₂ st bd hj => by
      interval_cases j
      simp at hj
      simp [← hj.1, ← hj.2])

/-- C3 counterexample: two endpoints failing all three attempts with
different last statuses (500 vs 404) produce the very same terminal
trace, whose error is the constant string
`"failed to send order to ERP after 3 attempts"` — so the non-2xx
exhaustion result cannot report the last observed HTTP status. -/
theorem exhaustion_result_hides_last_status :
    sendToERP (fun _ => .response 500 "server error")
      = sendToERP (fun _ => .response 404 "not found")
    ∧ (sendToERP (fun _ => .response 500 "server error")).result
      = .error "failed to send order to ERP after 3 attempts" :=
  ⟨rfl, rfl⟩

/-- C3 amended: on exhaustion after `MaxRetries` attempts, the
transport-error path returns an error reporting the attempt total and
the last observed transport error, while the non-2xx path returns an
error reporting the attempt total only — the last HTTP status is logged
but absent from the terminal result. -/
theorem exhaustion_reporting :
    (∀ (oracle : Nat → AttemptResult) (causes : Nat → String),
      (∀ k, 1 ≤ k → k ≤ MaxRetries → oracle k = .transportError (causes k)) →
      (sendToERP oracle).attemptsMade = MaxRetries
      ∧ (sendToERP oracle).result = .error
          ("failed to send request after " ++ toString MaxRetries
            ++ " attempts: " ++ causes MaxRetries))
    ∧ (∀ oracle : Nat → AttemptResult,
      (∀ k, 1 ≤ k → k ≤ MaxRetries →
          ∃ st body, oracle k = .response st body ∧ ¬(200 ≤ st ∧ st < 300)) →
      (sendToERP oracle).attemptsMade = MaxRetries
      ∧ (sendToERP oracle).result = .error
          ("failed to send order to ERP after " ++ toString MaxRetries ++ " attempts")) := by
  constructor
  · intro oracle causes h
    have e₁ := h 1 (by decide) (by decide)
    have e₂ := h 2 (by decide) (by decide)
    have e₃ := h 3 (by decide) (by decide)
    have hnums : attemptNumbers = [1, 2, 3] := rfl
    simp [sendToERP, hnums, sendLoop, e₁, e₂, e₃, MaxRetries]
  · intro oracle h
    obtain ⟨s₁, b₁, e₁, n₁⟩ := h 1 (by decide) (by decide)
    obtain ⟨s₂, b₂, e₂, n₂⟩ := h 2 (by decide) (by decide)
    obtain ⟨s₃, b₃, e₃, n₃⟩ := h 3 (by decide) (by decide)
    have hnums : attemptNumbers = [1, 2, 3] := rfl
    simp [sendToERP, hnums, sendLoop, e₁, e₂, e₃, n₁, n₂, n₃, MaxRetries]

/-- C3 amended witness: a constant transport failure and a constant 500
endpoint, each exhausting the budget with the stated messages. -/
theorem exhaustion_reporting_witness :
    ((sendToERP (fun _ => .transportError "connection refused")).attemptsMade = MaxRetries
      ∧ (sendToERP (fun _ => .transportError "connection refused")).result = .error
          ("failed to send request after " ++ toString MaxRetries
            ++ " attempts: " ++ (fun _ : Nat => "connection refused") MaxRetries))
    ∧ ((sendToERP (fun _ => .response 500 "oops")).attemptsMade = MaxRetries
      ∧ (sendToERP (fun _ => .response 500 "oops")).result = .error
          ("failed to send order to ERP after " ++ toString MaxRetries ++ " attempts")) :=
  ⟨exhaustion_reporting.1 (fun _ => .transportError "connection refused")
      (fun _ => "connection refused") (fun _ _ _ => rfl),
    exhaustion_reporting.2 (fun _ => .response 500 "oops")
      (fun _ _ _ => ⟨500, "oops", rfl, by decide⟩)⟩

end HedeyaAx
